import Mathlib

/-!
Verification of the keypair dispatch layer of helium-crypto-rs
(src/keypair.rs): the tagged key-type/network encoding, the sum-typed
`Keypair` and its lifecycle operations (generate, generate_from_entropy,
ecdh, to_vec, secret_to_vec, try_from), and the error and capability
contracts.

The dispatch layer in src/keypair.rs is translated directly.  The backend
keypair modules (ed25519, ecc_compact, ecc608, tpm, tee), the `KeyType`,
`Network`, `KeyTag`, `Error` and `PublicKey` types live outside the given
source tree; they are modelled from the spec, each marked
`Modelled from the spec:` in its doc comment.

Rust panics are modelled explicitly: a function that can panic returns
`PanicOr`, separating an unconditional abort from a recoverable
`Result` error value.
-/

namespace Helium

/-- Result of a Rust computation that may panic: either an unconditional
abort carrying the panic message, or a normal return value. -/
inductive PanicOr (α : Type) where
  | panic (msg : String)
  | ok (a : α)
deriving DecidableEq, Repr

/-- Whether a `PanicOr` computation aborted. -/
def PanicOr.isPanic {α : Type} : PanicOr α → Bool
  | .panic _ => true
  | .ok _ => false

/-- Modelled from the spec: `Network` is a closed enumeration
{MainNet, TestNet} identifying the deployment realm (spec section 3);
the enum itself is declared outside src/. -/
inductive Network where
  | MainNet
  | TestNet
deriving DecidableEq, Repr

/-- Modelled from the spec: `KeyType` is a closed enumeration
{Ed25519, EccCompact, MultiSig} where MultiSig is reserved and
unimplemented (spec section 3); the enum itself is declared outside
src/.  The model is built with the multisig feature compiled in. -/
inductive KeyType where
  | Ed25519
  | EccCompact
  | MultiSig
deriving DecidableEq, Repr

/-- Modelled from the spec: `KeyTag` is the value object
`{ network, key_type }` prefixing every serialized key
(spec section 3). -/
structure KeyTag where
  network : Network
  key_type : KeyType
deriving DecidableEq, Repr

/-- Modelled from the spec: the single-byte encoding of a KeyTag that
begins every serialized key.  The byte unambiguously decodes to a
KeyType and, via a parallel encoding, to a Network (spec sections 3
and 4.1): the key type occupies the low bits and the network a high
bit. -/
def KeyType.toByte : KeyType → Nat
  | .EccCompact => 0
  | .Ed25519 => 1
  | .MultiSig => 2

/-- Modelled from the spec: byte offset of the network component of the
serialized tag byte. -/
def Network.toByteOffset : Network → Nat
  | .MainNet => 0
  | .TestNet => 16

/-- Modelled from the spec: total encoding of a KeyTag to its leading
byte (spec section 4.1: encoding is total). -/
def KeyTag.toByte (tag : KeyTag) : Nat :=
  tag.network.toByteOffset + tag.key_type.toByte

/-- Modelled from the spec: error kinds of this layer —
`InvalidKeyType(byte)`, `InvalidCurve` (capability mismatch for
exchange), `InvalidEntropy`, and backend decode failures
(spec section 7). -/
inductive Error where
  | invalid_keytype (b : Nat)
  | invalid_curve
  | invalid_entropy
  | decode
deriving DecidableEq, Repr

/-- Modelled from the spec: decoding the leading byte to a KeyType is
partial over the 256 byte values, with a small closed subset valid;
an unrecognized byte fails with the invalid-key-type error carrying
the offending byte (spec section 4.1). -/
def KeyType.tryFromByte (b : Nat) : Except Error KeyType :=
  if b = 0 ∨ b = 16 then Except.ok KeyType.EccCompact
  else if b = 1 ∨ b = 17 then Except.ok KeyType.Ed25519
  else if b = 2 ∨ b = 18 then Except.ok KeyType.MultiSig
  else Except.error (Error.invalid_keytype b)

/-- Modelled from the spec: the network component decoded from a valid
tag byte (the parallel network encoding of spec section 3). -/
def Network.fromByte (b : Nat) : Network :=
  if b < 16 then Network.MainNet else Network.TestNet

/-- Interpret a little-endian list of bytes as the scalar it encodes;
used to turn backend secret material into the scalar driving the
modelled curve arithmetic. -/
def bytesToNat (bs : List Nat) : Nat :=
  bs.foldr (fun b acc => b + 256 * acc) 0

/-- Modelled from the spec: the curve arithmetic is an external
collaborator (spec section 1), so Diffie-Hellman exchange is modelled
as modular exponentiation over a fixed modulus. -/
def curveModulus : Nat := 2147483647

/-- Modelled from the spec: the fixed base point of the modelled
curve group. -/
def curveBase : Nat := 5

namespace ed25519

/-- Modelled from the spec: the Ed25519 backend keypair, an external
collaborator holding the network and its secret seed/scalar bytes
(spec sections 2 and 6). -/
structure Keypair where
  network : Network
  secret : List Nat
deriving DecidableEq, Repr

/-- Modelled from the spec: backend contract
`generate(network, csprng) -> BackendKeypair`; the csprng is modelled
as the stream of random bytes it yields. -/
def Keypair.generate (network : Network) (csprng : List Nat) : Keypair :=
  { network := network, secret := csprng }

/-- Modelled from the spec: backend contract
`generate_from_entropy(network, entropy) -> Result`; fails with an
invalid-entropy error if the backend rejects the entropy, e.g. wrong
length (spec section 4.2). -/
def Keypair.generate_from_entropy (network : Network) (entropy : List Nat) :
    Except Error Keypair :=
  if entropy.length = 32 then Except.ok { network := network, secret := entropy }
  else Except.error Error.invalid_entropy

/-- Modelled from the spec: backend contract `key_tag()` returns the
KeyTag consistent with the backend's identity (spec section 3). -/
def Keypair.key_tag (kp : Keypair) : KeyTag :=
  { network := kp.network, key_type := KeyType.Ed25519 }

/-- Modelled from the spec: serialized key byte format — byte 0 is the
KeyType tag, remaining bytes the backend encoding, which must
round-trip exactly (spec section 6). -/
def Keypair.to_vec (kp : Keypair) : List Nat :=
  KeyTag.toByte kp.key_tag :: kp.secret

/-- Modelled from the spec: secret-only export of a software-held key
(spec section 4.5). -/
def Keypair.secret_to_vec (kp : Keypair) : List Nat :=
  kp.secret

/-- Modelled from the spec: backend byte-deserialization — decodes the
leading tag byte back to the network and takes the remaining bytes as
the backend encoding, failing on a byte that is not this backend's tag
(spec sections 4.5 and 6). -/
def Keypair.tryFrom (input : List Nat) : Except Error Keypair :=
  match input with
  | [] => Except.error Error.decode
  | b :: rest =>
      if b = 1 ∨ b = 17 then
        Except.ok { network := Network.fromByte b, secret := rest }
      else Except.error Error.decode

end ed25519

namespace ecc_compact

/-- Modelled from the spec: the byte output of a Diffie-Hellman
exchange, an opaque fixed-length wrapper (spec section 3). -/
structure SharedSecret where
  val : Nat
deriving DecidableEq, Repr

/-- Modelled from the spec: the EccCompact backend keypair, an external
collaborator holding the network and its secret scalar bytes
(spec sections 2 and 6). -/
structure Keypair where
  network : Network
  secret : List Nat
deriving DecidableEq, Repr

/-- Modelled from the spec: backend contract
`generate(network, csprng) -> BackendKeypair`. -/
def Keypair.generate (network : Network) (csprng : List Nat) : Keypair :=
  { network := network, secret := csprng }

/-- Modelled from the spec: backend contract
`generate_from_entropy(network, entropy) -> Result`; fails with an
invalid-entropy error on entropy the backend rejects (spec
section 4.2). -/
def Keypair.generate_from_entropy (network : Network) (entropy : List Nat) :
    Except Error Keypair :=
  if entropy.length = 32 then Except.ok { network := network, secret := entropy }
  else Except.error Error.invalid_entropy

/-- Modelled from the spec: backend contract `key_tag()`. -/
def Keypair.key_tag (kp : Keypair) : KeyTag :=
  { network := kp.network, key_type := KeyType.EccCompact }

/-- Modelled from the spec: serialized key byte format — byte 0 the
KeyType tag, remaining bytes the backend encoding (spec section 6). -/
def Keypair.to_vec (kp : Keypair) : List Nat :=
  KeyTag.toByte kp.key_tag :: kp.secret

/-- Modelled from the spec: secret-only export of a software-held key
(spec section 4.5). -/
def Keypair.secret_to_vec (kp : Keypair) : List Nat :=
  kp.secret

/-- Modelled from the spec: backend byte-deserialization for the
EccCompact encoding (spec sections 4.5 and 6). -/
def Keypair.tryFrom (input : List Nat) : Except Error Keypair :=
  match input with
  | [] => Except.error Error.decode
  | b :: rest =>
      if b = 0 ∨ b = 16 then
        Except.ok { network := Network.fromByte b, secret := rest }
      else Except.error Error.decode

/-- Modelled from the spec: the public curve point derived from the
secret scalar — exponentiation of the base point in the modelled
group. -/
def Keypair.pubVal (kp : Keypair) : Nat :=
  curveBase ^ bytesToNat kp.secret % curveModulus

end ecc_compact

/-- Modelled from the spec: `PublicKey` is the mirror sum type carrying
only public material (spec sections 2 and 3); the hardware backends
expose EccCompact-family public points. -/
inductive PublicKey where
  | Ed25519 (network : Network) (val : Nat)
  | EccCompact (network : Network) (val : Nat)
deriving DecidableEq, Repr

/-- Modelled from the spec: the Ed25519 backend public half (backend
contract `public_key()`, spec section 6). -/
def ed25519.Keypair.public_key (kp : ed25519.Keypair) : PublicKey :=
  PublicKey.Ed25519 kp.network (curveBase ^ bytesToNat kp.secret % curveModulus)

/-- Modelled from the spec: the EccCompact backend public half. -/
def ecc_compact.Keypair.public_key (kp : ecc_compact.Keypair) : PublicKey :=
  PublicKey.EccCompact kp.network kp.pubVal

/-- Modelled from the spec: backend contract
`ecdh(peer_public_key) -> Result<SharedSecret, Error>`; Diffie-Hellman
with the peer's public point, failing with a curve-mismatch error when
the peer key is of a different backend family (spec section 4.4). -/
def ecc_compact.Keypair.ecdh (kp : ecc_compact.Keypair) (peer : PublicKey) :
    Except Error ecc_compact.SharedSecret :=
  match peer with
  | PublicKey.EccCompact _ val =>
      Except.ok { val := val ^ bytesToNat kp.secret % curveModulus }
  | PublicKey.Ed25519 _ _ => Except.error Error.invalid_curve

namespace ecc608

/-- Modelled from the spec: a hardware secure-element backend keypair —
an external collaborator whose secret material is hardware-isolated
and can never leave the device (spec sections 1 and 2); it holds the
network and a device-internal scalar, and is EccCompact-family. -/
structure Keypair where
  network : Network
  secret : List Nat
deriving DecidableEq, Repr

/-- Modelled from the spec: backend contract `key_tag()`; the secure
element implements the EccCompact curve family (spec section 3). -/
def Keypair.key_tag (kp : Keypair) : KeyTag :=
  { network := kp.network, key_type := KeyType.EccCompact }

/-- Modelled from the spec: the device's public half. -/
def Keypair.public_key (kp : Keypair) : PublicKey :=
  PublicKey.EccCompact kp.network (curveBase ^ bytesToNat kp.secret % curveModulus)

/-- Modelled from the spec: Diffie-Hellman-capable hardware variant
(spec section 4.4). -/
def Keypair.ecdh (kp : Keypair) (peer : PublicKey) :
    Except Error ecc_compact.SharedSecret :=
  match peer with
  | PublicKey.EccCompact _ val =>
      Except.ok { val := val ^ bytesToNat kp.secret % curveModulus }
  | PublicKey.Ed25519 _ _ => Except.error Error.invalid_curve

end ecc608

namespace tpm

/-- Modelled from the spec: the TPM backend keypair, hardware-isolated,
EccCompact-family (spec sections 1 and 2). -/
structure Keypair where
  network : Network
  secret : List Nat
deriving DecidableEq, Repr

/-- Modelled from the spec: backend contract `key_tag()`. -/
def Keypair.key_tag (kp : Keypair) : KeyTag :=
  { network := kp.network, key_type := KeyType.EccCompact }

/-- Modelled from the spec: the device's public half. -/
def Keypair.public_key (kp : Keypair) : PublicKey :=
  PublicKey.EccCompact kp.network (curveBase ^ bytesToNat kp.secret % curveModulus)

/-- Modelled from the spec: Diffie-Hellman-capable hardware variant. -/
def Keypair.ecdh (kp : Keypair) (peer : PublicKey) :
    Except Error ecc_compact.SharedSecret :=
  match peer with
  | PublicKey.EccCompact _ val =>
      Except.ok { val := val ^ bytesToNat kp.secret % curveModulus }
  | PublicKey.Ed25519 _ _ => Except.error Error.invalid_curve

end tpm

namespace tee

/-- Modelled from the spec: the TEE backend keypair, hardware-isolated,
EccCompact-family (spec sections 1 and 2). -/
structure Keypair where
  network : Network
  secret : List Nat
deriving DecidableEq, Repr

/-- Modelled from the spec: backend contract `key_tag()`. -/
def Keypair.key_tag (kp : Keypair) : KeyTag :=
  { network := kp.network, key_type := KeyType.EccCompact }

/-- Modelled from the spec: the TEE's public half. -/
def Keypair.public_key (kp : Keypair) : PublicKey :=
  PublicKey.EccCompact kp.network (curveBase ^ bytesToNat kp.secret % curveModulus)

/-- Modelled from the spec: Diffie-Hellman-capable hardware variant. -/
def Keypair.ecdh (kp : Keypair) (peer : PublicKey) :
    Except Error ecc_compact.SharedSecret :=
  match peer with
  | PublicKey.EccCompact _ val =>
      Except.ok { val := val ^ bytesToNat kp.secret % curveModulus }
  | PublicKey.Ed25519 _ _ => Except.error Error.invalid_curve

end tee

/-- The `Keypair` sum type of src/keypair.rs (lines 12-22), with the
conditionally compiled hardware variants (ecc608, tpm, tee features)
and the multisig feature all enabled. -/
inductive Keypair where
  | Ed25519 (kp : ed25519.Keypair)
  | EccCompact (kp : ecc_compact.Keypair)
  | Ecc608 (kp : ecc608.Keypair)
  | TPM (kp : tpm.Keypair)
  | Tee (kp : tee.Keypair)
deriving DecidableEq, Repr

/-- The `SharedSecret` wrapper of src/keypair.rs (line 24). -/
structure SharedSecret where
  val : ecc_compact.SharedSecret
deriving DecidableEq, Repr

/-- `Keypair::generate` of src/keypair.rs (lines 42-54): routes on
`key_tag.key_type`, passing `key_tag.network` and the csprng through;
the MultiSig arm is `panic!("not supported")`. -/
def Keypair.generate (key_tag : KeyTag) (csprng : List Nat) : PanicOr Keypair :=
  match key_tag.key_type with
  | KeyType.EccCompact =>
      PanicOr.ok (Keypair.EccCompact (ecc_compact.Keypair.generate key_tag.network csprng))
  | KeyType.Ed25519 =>
      PanicOr.ok (Keypair.Ed25519 (ed25519.Keypair.generate key_tag.network csprng))
  | KeyType.MultiSig => PanicOr.panic "not supported"

/-- `Keypair::generate_from_entropy` of src/keypair.rs (lines 56-68):
same routing, propagating the backend's Result; the MultiSig arm is
`panic!("not supported")`. -/
def Keypair.generate_from_entropy (key_tag : KeyTag) (entropy : List Nat) :
    PanicOr (Except Error Keypair) :=
  match key_tag.key_type with
  | KeyType.EccCompact =>
      PanicOr.ok ((ecc_compact.Keypair.generate_from_entropy key_tag.network entropy).map
        Keypair.EccCompact)
  | KeyType.Ed25519 =>
      PanicOr.ok ((ed25519.Keypair.generate_from_entropy key_tag.network entropy).map
        Keypair.Ed25519)
  | KeyType.MultiSig => PanicOr.panic "not supported"

/-- `Keypair::key_tag` of src/keypair.rs (lines 70-81): dispatches to
the active backend's `key_tag()`. -/
def Keypair.key_tag : Keypair → KeyTag
  | Keypair.Ed25519 kp => kp.key_tag
  | Keypair.EccCompact kp => kp.key_tag
  | Keypair.Ecc608 kp => kp.key_tag
  | Keypair.TPM kp => kp.key_tag
  | Keypair.Tee kp => kp.key_tag

/-- `Keypair::public_key` of src/keypair.rs (lines 83-94): dispatches
to the active backend's public half. -/
def Keypair.public_key : Keypair → PublicKey
  | Keypair.Ed25519 kp => kp.public_key
  | Keypair.EccCompact kp => kp.public_key
  | Keypair.Ecc608 kp => kp.public_key
  | Keypair.TPM kp => kp.public_key
  | Keypair.Tee kp => kp.public_key

/-- `Keypair::ecdh` of src/keypair.rs (lines 96-107): dispatches to the
Diffie-Hellman-capable backends and answers every other variant with
`Err(Error::invalid_curve())`. -/
def Keypair.ecdh (kp : Keypair) (public_key : PublicKey) :
    Except Error SharedSecret :=
  match kp with
  | Keypair.EccCompact keypair => (keypair.ecdh public_key).map SharedSecret.mk
  | Keypair.Ecc608 keypair => (keypair.ecdh public_key).map SharedSecret.mk
  | Keypair.TPM keypair => (keypair.ecdh public_key).map SharedSecret.mk
  | Keypair.Tee keypair => (keypair.ecdh public_key).map SharedSecret.mk
  | _ => Except.error Error.invalid_curve

/-- `Keypair::to_vec` of src/keypair.rs (lines 109-120): delegates to
the software backends and is `panic!("not supported")` on the Ecc608,
TPM and Tee variants. -/
def Keypair.to_vec : Keypair → PanicOr (List Nat)
  | Keypair.Ed25519 kp => PanicOr.ok kp.to_vec
  | Keypair.EccCompact kp => PanicOr.ok kp.to_vec
  | Keypair.Ecc608 _ => PanicOr.panic "not supported"
  | Keypair.TPM _ => PanicOr.panic "not supported"
  | Keypair.Tee _ => PanicOr.panic "not supported"

/-- `Keypair::secret_to_vec` of src/keypair.rs (lines 122-133):
delegates to the software backends and is `panic!("not supported")`
on the Ecc608, TPM and Tee variants. -/
def Keypair.secret_to_vec : Keypair → PanicOr (List Nat)
  | Keypair.Ed25519 kp => PanicOr.ok kp.secret_to_vec
  | Keypair.EccCompact kp => PanicOr.ok kp.secret_to_vec
  | Keypair.Ecc608 _ => PanicOr.panic "not supported"
  | Keypair.TPM _ => PanicOr.panic "not supported"
  | Keypair.Tee _ => PanicOr.panic "not supported"

/-- `TryFrom<&[u8]> for Keypair` of src/keypair.rs (lines 169-180):
reads `input[0]` — which in Rust panics with an index-out-of-bounds
abort on an empty slice — decodes it to a KeyType, routes to the
matching backend's deserialization, and answers a MultiSig tag with
`Err(Error::invalid_keytype(input[0]))`. -/
def Keypair.tryFrom (input : List Nat) : PanicOr (Except Error Keypair) :=
  match input with
  | [] => PanicOr.panic "index out of bounds: the len is 0 but the index is 0"
  | b :: _ =>
      match KeyType.tryFromByte b with
      | Except.error e => PanicOr.ok (Except.error e)
      | Except.ok KeyType.Ed25519 =>
          PanicOr.ok ((ed25519.Keypair.tryFrom input).map Keypair.Ed25519)
      | Except.ok KeyType.EccCompact =>
          PanicOr.ok ((ecc_compact.Keypair.tryFrom input).map Keypair.EccCompact)
      | Except.ok KeyType.MultiSig =>
          PanicOr.ok (Except.error (Error.invalid_keytype b))

/-- The KeyType that names each `Keypair` variant's backend family: the
software variants are named by their own KeyType, the hardware
variants implement the EccCompact curve family. -/
def Keypair.variantKeyType : Keypair → KeyType
  | Keypair.Ed25519 _ => KeyType.Ed25519
  | Keypair.EccCompact _ => KeyType.EccCompact
  | Keypair.Ecc608 _ => KeyType.EccCompact
  | Keypair.TPM _ => KeyType.EccCompact
  | Keypair.Tee _ => KeyType.EccCompact

/-- C2: for every Ed25519 keypair and every peer public key,
`Keypair::ecdh` returns the invalid-curve capability-mismatch error —
never a panic (its return type carries no panic case) and never a
successful SharedSecret. -/
theorem ed25519_ecdh_invalid_curve (kp : ed25519.Keypair) (peer : PublicKey) :
    Keypair.ecdh (Keypair.Ed25519 kp) peer = Except.error Error.invalid_curve := by
  rfl

/-- C3: evaluated on concrete hardware-backed keypairs (Ecc608, TPM,
Tee), both `to_vec` and `secret_to_vec` are unconditional aborts with
the message "not supported" — not the recoverable export-unsupported
error value the spec requires. -/
theorem hardware_export_panics :
    Keypair.to_vec (Keypair.Ecc608 { network := Network.MainNet, secret := [7] })
        = PanicOr.panic "not supported"
    ∧ Keypair.to_vec (Keypair.TPM { network := Network.MainNet, secret := [7] })
        = PanicOr.panic "not supported"
    ∧ Keypair.to_vec (Keypair.Tee { network := Network.MainNet, secret := [7] })
        = PanicOr.panic "not supported"
    ∧ Keypair.secret_to_vec (Keypair.Ecc608 { network := Network.MainNet, secret := [7] })
        = PanicOr.panic "not supported"
    ∧ Keypair.secret_to_vec (Keypair.TPM { network := Network.MainNet, secret := [7] })
        = PanicOr.panic "not supported"
    ∧ Keypair.secret_to_vec (Keypair.Tee { network := Network.MainNet, secret := [7] })
        = PanicOr.panic "not supported" := by
  refine ⟨rfl, rfl, rfl, rfl, rfl, rfl⟩

/-- C4 counterexample: `Keypair::try_from` on the empty byte slice does
not return an error value: no error `e` makes the result the
recoverable value `Err(e)`, because the Rust code indexes `input[0]`
and aborts. -/
theorem tryFrom_nil_returns_no_error :
    ¬ ∃ e : Error, Keypair.tryFrom [] = PanicOr.ok (Except.error e) := by
  rintro ⟨e, h⟩
  simp [Keypair.tryFrom] at h

/-- C4 (amended): `Keypair::try_from` on the empty byte slice
deterministically panics with the index-out-of-bounds abort of
`input[0]` rather than returning an error value. -/
theorem tryFrom_nil_panics :
    Keypair.tryFrom [] = PanicOr.panic "index out of bounds: the len is 0 but the index is 0" := by
  rfl

/-- C5: for every non-empty byte slice whose first byte does not decode
to a known KeyType, `Keypair::try_from` fails with the InvalidKeyType
error carrying that offending byte. -/
theorem tryFrom_unknown_byte (b : Nat) (rest : List Nat)
    (h : ∀ kt : KeyType, KeyType.tryFromByte b ≠ Except.ok kt) :
    Keypair.tryFrom (b :: rest) = PanicOr.ok (Except.error (Error.invalid_keytype b)) := by
  have h0 : ¬(b = 0 ∨ b = 16) := fun hb => by
    rcases hb with rfl | rfl <;> exact h KeyType.EccCompact rfl
  have h1 : ¬(b = 1 ∨ b = 17) := fun hb => by
    rcases hb with rfl | rfl <;> exact h KeyType.Ed25519 rfl
  have h2 : ¬(b = 2 ∨ b = 18) := fun hb => by
    rcases hb with rfl | rfl <;> exact h KeyType.MultiSig rfl
  have hdec : KeyType.tryFromByte b = Except.error (Error.invalid_keytype b) := by
    unfold KeyType.tryFromByte
    rw [if_neg h0, if_neg h1, if_neg h2]
  simp [Keypair.tryFrom, hdec]

/-- C5 witness: the byte 0xFF decodes to no KeyType, and
`Keypair::try_from` on `[0xFF]` fails with `InvalidKeyType(0xFF)`. -/
theorem tryFrom_unknown_byte_witness :
    (∀ kt : KeyType, KeyType.tryFromByte 255 ≠ Except.ok kt)
    ∧ Keypair.tryFrom [255] = PanicOr.ok (Except.error (Error.invalid_keytype 255)) := by
  have hp : ∀ kt : KeyType, KeyType.tryFromByte 255 ≠ Except.ok kt := by
    intro kt
    cases kt <;> simp [KeyType.tryFromByte]
  exact ⟨hp, tryFrom_unknown_byte 255 [] hp⟩

/-- C6 counterexample: deserializing bytes whose tag byte names
MultiSig (byte 2) does not raise a fatal condition: `Keypair::try_from`
returns the recoverable `Err(InvalidKeyType(2))` value, and in
particular does not panic. -/
theorem tryFrom_multisig_no_panic :
    Keypair.tryFrom [2] = PanicOr.ok (Except.error (Error.invalid_keytype 2))
    ∧ (Keypair.tryFrom [2]).isPanic = false := by
  exact ⟨rfl, rfl⟩

/-- C6 (amended): with the MultiSig key type compiled in,
`Keypair::generate` and `Keypair::generate_from_entropy` on a MultiSig
KeyTag panic with "not supported", but `Keypair::try_from` on bytes
whose tag byte names MultiSig returns the recoverable
`InvalidKeyType` error carrying that byte instead of panicking. -/
theorem multisig_construction_behavior (net : Network) (csprng entropy rest : List Nat) :
    Keypair.generate { network := net, key_type := KeyType.MultiSig } csprng
        = PanicOr.panic "not supported"
    ∧ Keypair.generate_from_entropy { network := net, key_type := KeyType.MultiSig } entropy
        = PanicOr.panic "not supported"
    ∧ Keypair.tryFrom (2 :: rest) = PanicOr.ok (Except.error (Error.invalid_keytype 2))
    ∧ Keypair.tryFrom (18 :: rest) = PanicOr.ok (Except.error (Error.invalid_keytype 18)) := by
  refine ⟨rfl, rfl, rfl, rfl⟩

/-- C1: for every supported (network, key_type) combination — Ed25519
and EccCompact on MainNet and TestNet — deserializing the
serialization of a freshly generated keypair succeeds and yields a
Keypair equal to the original, whose `key_tag()` equals the tag used
to generate it. -/
theorem keypair_bytes_roundtrip (net : Network) (kt : KeyType) (csprng : List Nat)
    (h : kt = KeyType.Ed25519 ∨ kt = KeyType.EccCompact) :
    ∃ (kp : Keypair) (bytes : List Nat),
      Keypair.generate { network := net, key_type := kt } csprng = PanicOr.ok kp
      ∧ kp.to_vec = PanicOr.ok bytes
      ∧ Keypair.tryFrom bytes = PanicOr.ok (Except.ok kp)
      ∧ kp.key_tag = { network := net, key_type := kt } := by
  rcases h with rfl | rfl <;> cases net <;> exact ⟨_, _, rfl, rfl, rfl, rfl⟩

/-- C1 witness: the round trip evaluated for an Ed25519 MainNet keypair
generated from the concrete random bytes [9, 8, 7]. -/
theorem keypair_bytes_roundtrip_witness :
    ∃ (kp : Keypair) (bytes : List Nat),
      Keypair.generate { network := Network.MainNet, key_type := KeyType.Ed25519 } [9, 8, 7]
        = PanicOr.ok kp
      ∧ kp.to_vec = PanicOr.ok bytes
      ∧ Keypair.tryFrom bytes = PanicOr.ok (Except.ok kp)
      ∧ kp.key_tag = { network := Network.MainNet, key_type := KeyType.Ed25519 } :=
  keypair_bytes_roundtrip Network.MainNet KeyType.Ed25519 [9, 8, 7] (Or.inl rfl)

/-- Exponentiating a reduced power commutes: the Diffie-Hellman core
identity in the modelled group. -/
theorem pow_mod_pow_comm (g a b n : Nat) :
    (g ^ a % n) ^ b % n = (g ^ b % n) ^ a % n := by
  calc (g ^ a % n) ^ b % n
      = (g ^ a) ^ b % n := (Nat.pow_mod _ _ _).symm
    _ = g ^ (a * b) % n := by rw [← pow_mul]
    _ = g ^ (b * a) % n := by rw [Nat.mul_comm]
    _ = (g ^ b) ^ a % n := by rw [pow_mul]
    _ = (g ^ b % n) ^ a % n := Nat.pow_mod _ _ _

/-- C7: for any two independently generated EccCompact keypairs A and B
on the same network, `A.ecdh(B.public_key())` and
`B.ecdh(A.public_key())` both succeed and yield byte-identical
SharedSecret values. -/
theorem ecdh_symmetric (net : Network) (sA sB : List Nat) :
    ∃ (kpA kpB : Keypair) (secret : SharedSecret),
      Keypair.generate { network := net, key_type := KeyType.EccCompact } sA = PanicOr.ok kpA
      ∧ Keypair.generate { network := net, key_type := KeyType.EccCompact } sB = PanicOr.ok kpB
      ∧ kpA.ecdh kpB.public_key = Except.ok secret
      ∧ kpB.ecdh kpA.public_key = Except.ok secret := by
  refine ⟨Keypair.EccCompact (ecc_compact.Keypair.generate net sA),
    Keypair.EccCompact (ecc_compact.Keypair.generate net sB),
    ⟨⟨(curveBase ^ bytesToNat sB % curveModulus) ^ bytesToNat sA % curveModulus⟩⟩,
    rfl, rfl, rfl, ?_⟩
  exact congrArg (fun v => Except.ok (SharedSecret.mk (ecc_compact.SharedSecret.mk v)))
    (pow_mod_pow_comm curveBase (bytesToNat sA) (bytesToNat sB) curveModulus)

/-- C8: `Keypair::generate_from_entropy` is deterministic — two calls
with the identical tag and entropy that both succeed yield equal
Keypairs with identical serialized bytes (and being a pure function of
its arguments, two calls always agree, so both fail together as
well). -/
theorem generate_from_entropy_deterministic (tag : KeyTag) (e : List Nat)
    (kp1 kp2 : Keypair)
    (h1 : Keypair.generate_from_entropy tag e = PanicOr.ok (Except.ok kp1))
    (h2 : Keypair.generate_from_entropy tag e = PanicOr.ok (Except.ok kp2)) :
    kp1 = kp2 ∧ kp1.to_vec = kp2.to_vec := by
  rw [h1] at h2
  simp only [PanicOr.ok.injEq, Except.ok.injEq] at h2
  subst h2
  exact ⟨rfl, rfl⟩

/-- C8 witness: both calls evaluated at the Ed25519 MainNet tag with a
concrete 32-byte entropy. -/
theorem generate_from_entropy_deterministic_witness :
    Keypair.Ed25519 { network := Network.MainNet, secret := List.replicate 32 0 }
      = Keypair.Ed25519 { network := Network.MainNet, secret := List.replicate 32 0 }
    ∧ (Keypair.Ed25519 { network := Network.MainNet, secret := List.replicate 32 0 }).to_vec
      = (Keypair.Ed25519 { network := Network.MainNet, secret := List.replicate 32 0 }).to_vec :=
  generate_from_entropy_deterministic
    { network := Network.MainNet, key_type := KeyType.Ed25519 } (List.replicate 32 0)
    _ _ rfl rfl

/-- C9: every Keypair satisfies the tag-consistency invariant — the
embedded backend keypair's `key_tag()` has the key type naming the
active variant's backend family — `key_tag` itself is a total
projection, and `generate` routes to the backend matching
`tag.key_type`, passing `tag.network` through, so the generated
Keypair's `key_tag()` equals the requested tag. -/
theorem keypair_tag_consistency :
    (∀ kp : Keypair, (Keypair.key_tag kp).key_type = kp.variantKeyType)
    ∧ (∀ (net : Network) (kt : KeyType) (csprng : List Nat),
        kt ≠ KeyType.MultiSig →
        ∃ kp : Keypair,
          Keypair.generate { network := net, key_type := kt } csprng = PanicOr.ok kp
          ∧ kp.key_tag = { network := net, key_type := kt }) := by
  constructor
  · intro kp
    cases kp <;> rfl
  · intro net kt csprng h
    cases kt
    · exact ⟨_, rfl, rfl⟩
    · exact ⟨_, rfl, rfl⟩
    · exact absurd rfl h

/-- C9 witness: the invariant evaluated on a concrete TPM-backed
keypair and the routing evaluated for a concrete EccCompact TestNet
generation. -/
theorem keypair_tag_consistency_witness :
    (Keypair.key_tag (Keypair.TPM { network := Network.MainNet, secret := [3] })).key_type
      = (Keypair.TPM { network := Network.MainNet, secret := [3] }).variantKeyType
    ∧ ∃ kp : Keypair,
        Keypair.generate { network := Network.TestNet, key_type := KeyType.EccCompact } [1, 2]
          = PanicOr.ok kp
        ∧ kp.key_tag = { network := Network.TestNet, key_type := KeyType.EccCompact } :=
  ⟨keypair_tag_consistency.1 (Keypair.TPM { network := Network.MainNet, secret := [3] }),
    keypair_tag_consistency.2 Network.TestNet KeyType.EccCompact [1, 2] (by decide)⟩

/-- C10: for every KeyTag whose key type is Ed25519 or EccCompact and
any random source, `Keypair::generate` is total at the dispatch layer:
it returns a Keypair and no panic branch is reachable. -/
theorem generate_total (tag : KeyTag) (csprng : List Nat)
    (h : tag.key_type = KeyType.Ed25519 ∨ tag.key_type = KeyType.EccCompact) :
    ∃ kp : Keypair, Keypair.generate tag csprng = PanicOr.ok kp := by
  rcases tag with ⟨net, kt⟩
  rcases h with h | h <;> (simp only at h; subst h; exact ⟨_, rfl⟩)

/-- C10 witness: `generate` evaluated at the Ed25519 MainNet tag with
an empty random stream. -/
theorem generate_total_witness :
    ∃ kp : Keypair,
      Keypair.generate { network := Network.MainNet, key_type := KeyType.Ed25519 } []
        = PanicOr.ok kp :=
  generate_total { network := Network.MainNet, key_type := KeyType.Ed25519 } [] (Or.inl rfl)

end Helium
